import Mathlib

/-!
Verification of the documind vector indexing and similarity-search subsystem.

The development shallowly embeds the code of
`backend/app/services/vector_search_service.py` and `backend/app/api/search.py`:

* A float32 component is modelled by its 32-bit pattern, a natural number
  below 2^32.  `_serialize_vector` writes each component as four
  little-endian bytes (`astype('<f4').tobytes()`); serialisation and
  deserialisation are therefore exact maps on bit patterns, which is the
  level at which the round-trip contract is stated.
* Similarity scores and query-vector components are modelled as rationals;
  every comparison the code performs on them is order-theoretic.
* Redis hashes under the `vector:*` prefix are modelled as a list of
  `VectorRecord`; the base64 wrapping of the stored vector bytes is a
  bijection inverted exactly by the reader (`b64decode` + `frombuffer`),
  so the model stores the 32-bit word list directly.
* Exceptions that the Python code catches and turns into a skip or an
  empty list are modelled with `Option` / `Except`.
-/

set_option linter.unusedVariables false

/-- `settings.embedding_dimensions` from `app/config.py`. -/
def embedding_dimensions : Nat := 1536

/-- The four little-endian bytes of a 32-bit word, as produced for each
float32 component by `astype('<f4').tobytes()`. -/
def bytesOfWord32LE (w : Nat) : List Nat :=
  [w % 256, w / 256 % 256, w / 65536 % 256, w / 16777216 % 256]

/-- Reassemble a 32-bit word from four little-endian bytes (one float32 of
`np.frombuffer(..., dtype=np.float32)`). -/
def word32OfBytesLE (b0 b1 b2 b3 : Nat) : Nat :=
  b0 + 256 * b1 + 65536 * b2 + 16777216 * b3

/-- Decode a byte stream four bytes at a time into 32-bit words. -/
def decodeFloat32Words : List Nat → List Nat
  | b0 :: b1 :: b2 :: b3 :: rest => word32OfBytesLE b0 b1 b2 b3 :: decodeFloat32Words rest
  | _ => []

/-- `VectorSearchService._serialize_vector` (lines 438-452): converts the
vector to float32, raises `ValueError` if its length is not the configured
`embedding_dimensions`, otherwise returns the little-endian float32 bytes. -/
def serializeVector (v : List Nat) : Except String (List Nat) :=
  if v.length ≠ embedding_dimensions then
    .error ("Vector dimension mismatch: got " ++ toString v.length ++
            ", expected " ++ toString embedding_dimensions)
  else
    .ok (v.flatMap bytesOfWord32LE)

/-- `VectorSearchService._deserialize_vector` (lines 454-469):
`np.frombuffer(..., dtype=np.float32)` succeeds exactly when the byte count
is a multiple of 4; on any other length the `struct.unpack` fallback demands
exactly `4 * (len // 4)` bytes as well, so both attempts fail and the
exception is re-raised. -/
def deserializeVector (bytes : List Nat) : Except String (List Nat) :=
  if bytes.length % 4 = 0 then .ok (decodeFloat32Words bytes)
  else .error "Failed to deserialize vector"

theorem word32_roundtrip (w : Nat) (h : w < 4294967296) :
    word32OfBytesLE (w % 256) (w / 256 % 256) (w / 65536 % 256) (w / 16777216 % 256) = w := by
  unfold word32OfBytesLE
  omega

theorem decodeFloat32Words_append (w : Nat) (h : w < 4294967296) (rest : List Nat) :
    decodeFloat32Words (bytesOfWord32LE w ++ rest) = w :: decodeFloat32Words rest := by
  simp only [bytesOfWord32LE, List.cons_append, List.nil_append, decodeFloat32Words]
  rw [word32_roundtrip w h]
  simp

theorem decodeFloat32Words_flatMap (v : List Nat) (h : ∀ w ∈ v, w < 4294967296) :
    decodeFloat32Words (v.flatMap bytesOfWord32LE) = v := by
  induction v with
  | nil => rfl
  | cons w ws ih =>
    rw [List.flatMap_cons, decodeFloat32Words_append w (h w (List.mem_cons_self w ws))]
    rw [ih (fun x hx => h x (List.mem_cons_of_mem w hx))]

theorem length_flatMap_bytes (v : List Nat) :
    (v.flatMap bytesOfWord32LE).length = 4 * v.length := by
  induction v with
  | nil => rfl
  | cons w ws ih =>
    rw [List.flatMap_cons, List.length_append, ih]
    simp [bytesOfWord32LE]
    omega

/-- Claim C1: for every vector of the configured dimensionality whose
components are float32 values (modelled by their 32-bit patterns),
`_serialize_vector` succeeds and `_deserialize_vector` applied to the
produced bytes returns the vector exactly — hence, in particular, every
component is within float32 rounding error (here: equal). -/
theorem vector_codec_roundtrip (v : List Nat)
    (hlen : v.length = embedding_dimensions)
    (h32 : ∀ w ∈ v, w < 4294967296) :
    ∃ bs, serializeVector v = .ok bs ∧ deserializeVector bs = .ok v := by
  refine ⟨v.flatMap bytesOfWord32LE, ?_, ?_⟩
  · unfold serializeVector
    rw [if_neg (by simp [hlen])]
  · unfold deserializeVector
    rw [if_pos (by rw [length_flatMap_bytes]; omega)]
    rw [decodeFloat32Words_flatMap v h32]

/-- Witness for C1 at the concrete vector of 1536 zero components. -/
theorem vector_codec_roundtrip_witness :
    ∃ bs, serializeVector (List.replicate 1536 0) = .ok bs ∧
      deserializeVector bs = .ok (List.replicate 1536 0) :=
  vector_codec_roundtrip (List.replicate 1536 0)
    (by rw [List.length_replicate]; rfl)
    (fun w hw => by
      rw [List.mem_replicate] at hw
      omega)

/-- A stored Redis hash under a `vector:*` key, as written by
`add_document_vectors` (lines 116-129).  `vector` is the list of 32-bit
float patterns (the base64 wrapping is a bijection and its inverse is
applied by the only reader, lines 312-313); `none` models a hash without a
`vector` field. -/
structure VectorRecord where
  key : String
  vector : Option (List Nat)
  content : String
  title : String
  filename : String
  doc_id : String
  chunk_id : String
  tags : String
  word_count : Nat
  chunk_index : Nat
  upload_date : String
  embedding_method : String
deriving DecidableEq

/-- The `tags` value of a result dict: the stored hash field is a string,
but both result producers put a Python *list* under the key. -/
inductive TagsValue
  | str (s : String)
  | list (l : List String)
deriving DecidableEq

/-- A result dict as consumed by `_process_search_results`: the union of
the fields read from the dicts built by `_execute_fallback_search`
(lines 325-339) and `_generate_demo_results` (lines 553-566).  `similarity`
and `score` are `none` when the corresponding key is absent.  Neither
producer emits a `vector` key, so the `"vector" in result` branch of
`_process_search_results` (lines 366-368) can never fire and is not
represented. -/
structure RawResult where
  similarity : Option ℚ
  score : Option ℚ
  chunk_id : String
  doc_id : String
  content : String
  title : String
  filename : String
  word_count : Nat
  chunk_index : Nat
  tags : TagsValue
  upload_date : String
  embedding_method : String
deriving DecidableEq

/-- The `enhanced_result` dict built by `_process_search_results`
(lines 379-392). -/
structure Enhanced where
  chunk_id : String
  doc_id : String
  content : String
  title : String
  filename : String
  similarity_score : ℚ
  word_count : Nat
  chunk_index : Nat
  tags : List String
  upload_date : String
  embedding_method : String
  search_score : ℚ
deriving DecidableEq

/-- `vector_data.get("tags", "").split("|") if vector_data.get("tags") else []`
(line 334) on the stored string field. -/
def pyTagsSplit (s : String) : List String :=
  if s = "" then [] else s.splitOn "|"

/-- Line 322 calls `self._calculate_cosine_similarity(...)`, but the class
`VectorSearchService` defines no such method anywhere in the repository, so
the attribute lookup raises `AttributeError`.  The missing attribute is
modelled as `none`; the value a method would have is a function from the
query vector and the stored 32-bit patterns to a score. -/
def calculateCosineSimilarityMethod : Option (List ℚ → List Nat → ℚ) := none

/-- The key loop of `_execute_fallback_search` (lines 296-346).  `pc` is
`processed_count`, `acc` the accumulated `results` (in reverse).  A record
without a `vector` field is skipped (line 304); for a record with one, the
call at line 322 raises `AttributeError`, the per-record handler at
line 344 catches it and `continue`s, so neither a result nor a
`processed_count` increment happens. -/
def fallbackLoop (qv : List ℚ) : List VectorRecord → Nat → List RawResult → List RawResult
  | [], _, acc => acc.reverse
  | r :: rest, pc, acc =>
    if 100 ≤ pc then acc.reverse
    else
      match r.vector with
      | none => fallbackLoop qv rest pc acc
      | some words =>
        match calculateCosineSimilarityMethod with
        | none => fallbackLoop qv rest pc acc
        | some f =>
          let similarity := f qv words
          if 1/10 ≤ similarity then
            fallbackLoop qv rest (pc + 1)
              ({ similarity := some similarity, score := some (1 - similarity),
                 chunk_id := r.chunk_id, doc_id := r.doc_id, content := r.content,
                 title := r.title, filename := r.filename,
                 word_count := r.word_count, chunk_index := r.chunk_index,
                 tags := .list (pyTagsSplit r.tags),
                 upload_date := r.upload_date,
                 embedding_method := r.embedding_method } :: acc)
          else
            fallbackLoop qv rest (pc + 1) acc

/-- Descending-key relation used to model Python's
`list.sort(key=..., reverse=True)`. -/
def keyGe {α : Type} (k : α → ℚ) (a b : α) : Prop := k b ≤ k a

instance {α : Type} (k : α → ℚ) : DecidableRel (keyGe k) :=
  fun a b => inferInstanceAs (Decidable (k b ≤ k a))

instance {α : Type} (k : α → ℚ) : IsTotal α (keyGe k) :=
  ⟨fun a b => le_total (k b) (k a)⟩

instance {α : Type} (k : α → ℚ) : IsTrans α (keyGe k) :=
  ⟨fun a b c h1 h2 => le_trans h2 h1⟩

/-- Python's `list.sort(key=k, reverse=True)`: a stable sort putting larger
keys first.  A stable sort for a total preorder has a unique result, and
`List.insertionSort` with `keyGe k` is such a sort (it keeps the original
relative order of equal-key elements). -/
def pySortDesc {α : Type} (k : α → ℚ) (l : List α) : List α :=
  List.insertionSort (keyGe k) l

/-- `_execute_fallback_search` (lines 283-356): returns `[]` when there are
no `vector:*` keys (line 289); otherwise runs the scan loop, sorts by
`x.get("similarity", 0)` descending (line 351) and truncates to `limit`. -/
def executeFallbackSearch (store : List VectorRecord) (qv : List ℚ) (limit : Nat) :
    List RawResult :=
  if store = [] then []
  else (pySortDesc (fun r => r.similarity.getD 0) (fallbackLoop qv store 0 [])).take limit

theorem fallbackLoop_eq_reverse (qv : List ℚ) :
    ∀ (l : List VectorRecord) (pc : Nat) (acc : List RawResult),
      fallbackLoop qv l pc acc = acc.reverse := by
  intro l
  induction l with
  | nil => intro pc acc; rfl
  | cons r rest ih =>
    intro pc acc
    unfold fallbackLoop
    by_cases h : 100 ≤ pc
    · rw [if_pos h]
    · rw [if_neg h]
      cases hv : r.vector with
      | none => exact ih pc acc
      | some words => exact ih pc acc

theorem executeFallbackSearch_eq_nil (store : List VectorRecord) (qv : List ℚ) (limit : Nat) :
    executeFallbackSearch store qv limit = [] := by
  unfold executeFallbackSearch
  by_cases h : store = []
  · rw [if_pos h]
  · rw [if_neg h, fallbackLoop_eq_reverse]
    simp [pySortDesc, List.insertionSort]

/-- `round(x, 4)` in Python: round half to even at four decimal places. -/
def roundHalfEven (q : ℚ) : ℤ :=
  let f := ⌊q⌋
  let r := q - (f : ℚ)
  if r < 1/2 then f
  else if 1/2 < r then f + 1
  else if f % 2 = 0 then f else f + 1

/-- `round(similarity, 4)` (line 385). -/
def pyRound4 (q : ℚ) : ℚ := (roundHalfEven (q * 10000) : ℚ) / 10000

theorem pyRound4_half : pyRound4 (1/2) = 1/2 := by
  unfold pyRound4 roundHalfEven
  norm_num

/-- The `"tags"` expression of line 388:
`result.get("tags", "").split("|") if result.get("tags") else []`.
A falsy value (empty string or empty list) yields `[]`; a nonempty string is
split; a nonempty *list* has no `.split` method, so the expression raises
`AttributeError` (modelled as `none`), which the per-result handler at
line 396 catches, dropping the result. -/
def pyTagsAccess : TagsValue → Option (List String)
  | .str s => if s = "" then some [] else some (s.splitOn "|")
  | .list l => if l = [] then some [] else none

/-- The per-result body of `_process_search_results` (lines 362-398):
computes the similarity (the result's own `similarity` key if present,
otherwise `1.0 - result.get("score", 1.0)`; the `"vector"` branch is
unreachable, see `RawResult`), applies the threshold, and builds the
enhanced result; `none` models a dropped result (threshold or exception). -/
def processOne (threshold : ℚ) (r : RawResult) : Option Enhanced :=
  let similarity :=
    match r.similarity with
    | some s => s
    | none => 1 - r.score.getD 1
  if similarity < threshold then none
  else
    match pyTagsAccess r.tags with
    | none => none
    | some tagList =>
      some { chunk_id := r.chunk_id, doc_id := r.doc_id, content := r.content,
             title := r.title, filename := r.filename,
             similarity_score := pyRound4 similarity,
             word_count := r.word_count, chunk_index := r.chunk_index,
             tags := tagList, upload_date := r.upload_date,
             embedding_method := r.embedding_method,
             search_score := r.score.getD 0 }

/-- `_process_search_results` (lines 358-403): per-result processing
followed by `processed.sort(key=lambda x: x["similarity_score"], reverse=True)`
(line 401).  `queryVector` is the unused-in-practice `query_vector`
parameter. -/
def processSearchResults (results : List RawResult) (queryVector : List ℚ) (threshold : ℚ) :
    List Enhanced :=
  pySortDesc (fun e => e.similarity_score) (results.filterMap (processOne threshold))

/-- One entry of the `demo_content` dict of `_generate_demo_results`
(lines 516-537). -/
structure DemoTopic where
  name : String
  title : String
  content : String
  filename : String
deriving DecidableEq

def demoContent : List DemoTopic :=
  [⟨"redis", "Redis Performance Guide",
    "Redis delivers exceptional performance through in-memory data structures and optimized algorithms. Key features include sub-millisecond latency, horizontal scaling, and multi-model capabilities.",
    "redis_guide.pdf"⟩,
   ⟨"api", "API Security Best Practices",
    "Secure API development requires proper authentication, input validation, rate limiting, and comprehensive monitoring. Implement OAuth 2.0 and JWT tokens for robust security.",
    "api_security.pdf"⟩,
   ⟨"america", "American Technology Innovation",
    "America leads global technology innovation through Silicon Valley, research universities, and venture capital investment. Key sectors include AI, cloud computing, and biotechnology.",
    "tech_innovation.pdf"⟩,
   ⟨"search", "Semantic Search Architecture",
    "Modern search systems combine traditional keyword matching with semantic understanding through machine learning models and vector similarity calculations.",
    "semantic_search.pdf"⟩]

def charsStartsWith : List Char → List Char → Bool
  | [], _ => true
  | _ :: _, [] => false
  | a :: as, b :: bs => decide (a = b) && charsStartsWith as bs

def charsHasSub (needle : List Char) : List Char → Bool
  | [] => needle.isEmpty
  | c :: rest => charsStartsWith needle (c :: rest) || charsHasSub needle rest

/-- Python's `needle in hay` substring test. -/
def pyContains (hay needle : String) : Bool := charsHasSub needle.toList hay.toList

/-- Python's `str.lower()`. -/
def pyLower (s : String) : String := String.mk (s.toList.map Char.toLower)

/-- Python's `len(s.split())`: number of whitespace-separated words. -/
def pyWordCount (s : String) : Nat :=
  ((s.splitOn " ").filter (fun w => !w.isEmpty)).length

/-- One demo result dict (lines 553-566).  The dict carries a random
`similarity_score` and a `search_score` key but neither a `similarity` nor
a `score` key, and no key the downstream processing reads depends on the
random draw, so the model omits the two random-valued fields. -/
def mkDemoResult (t : DemoTopic) (i : Nat) : RawResult :=
  { similarity := none, score := none,
    chunk_id := "demo_chunk_" ++ t.name ++ "_" ++ toString i,
    doc_id := "demo_doc_" ++ t.name,
    content := t.content, title := t.title, filename := t.filename,
    word_count := pyWordCount t.content,
    chunk_index := i,
    tags := .list [t.name, "demo", "technical"],
    upload_date := "2025-01-31T12:00:00Z",
    embedding_method := "demo" }

/-- `for i, (topic, content) in enumerate(matched_topics[:limit])`. -/
def enumerateDemo (i : Nat) : List DemoTopic → List RawResult
  | [] => []
  | t :: ts => mkDemoResult t i :: enumerateDemo (i + 1) ts

/-- `_generate_demo_results` (lines 506-571): topics whose name occurs in
the lowercased query (for the single-word topic names the
`any(word in query_lower ...)` clause coincides with `topic in query_lower`),
defaulting to the first three topics when nothing matches. -/
def generateDemoResults (query : String) (limit : Nat) : List RawResult :=
  let queryLower := pyLower query
  let matched := demoContent.filter (fun t => pyContains queryLower t.name)
  let matched := if matched = [] then demoContent.take 3 else matched
  enumerateDemo 0 (matched.take limit)

/-- `search_vectors` (lines 158-195): the embedding outcome of the external
collaborator is an explicit argument; any exception (line 193) makes the
whole call return `[]`.  The Redis-Stack KNN path is skipped by the code
itself (line 172), so on success the fallback scan runs, demo results
replace an empty scan result (lines 181-184), and `_process_search_results`
ranks and filters.  `filters` is accepted and passed through unread, as in
the source. -/
def searchVectors (store : List VectorRecord) (embedResult : Except String (List ℚ))
    (query : String) (limit : Nat) (filters : Option (List (String × String)))
    (threshold : ℚ) : List Enhanced :=
  match embedResult with
  | .error _ => []
  | .ok qv =>
    let results := executeFallbackSearch store qv limit
    let results := if results = [] then generateDemoResults query limit else results
    processSearchResults results qv threshold

theorem processOne_mkDemoResult (threshold : ℚ) (t : DemoTopic) (i : Nat) :
    processOne threshold (mkDemoResult t i) = none := by
  unfold processOne mkDemoResult
  simp only [Option.getD]
  by_cases h : (1 : ℚ) - 1 < threshold
  · rw [if_pos h]
  · rw [if_neg h]
    rfl

theorem filterMap_enumerateDemo (threshold : ℚ) :
    ∀ (l : List DemoTopic) (i : Nat),
      (enumerateDemo i l).filterMap (processOne threshold) = [] := by
  intro l
  induction l with
  | nil => intro i; rfl
  | cons t ts ih =>
    intro i
    rw [enumerateDemo, List.filterMap_cons, processOne_mkDemoResult]
    exact ih (i + 1)

theorem processSearchResults_demo (query : String) (limit : Nat) (qv : List ℚ)
    (threshold : ℚ) :
    processSearchResults (generateDemoResults query limit) qv threshold = [] := by
  unfold processSearchResults generateDemoResults
  rw [filterMap_enumerateDemo]
  rfl

/-- `search_vectors` returns the empty list on every input: the fallback
scan produces no candidates (missing similarity method) and every injected
demo result is dropped by `_process_search_results` (below the threshold
when the threshold is positive, otherwise by the `AttributeError` on its
list-valued `tags`). -/
theorem searchVectors_eq_nil (store : List VectorRecord)
    (embedResult : Except String (List ℚ)) (query : String) (limit : Nat)
    (filters : Option (List (String × String))) (threshold : ℚ) :
    searchVectors store embedResult query limit filters threshold = [] := by
  cases embedResult with
  | error e => rfl
  | ok qv =>
    simp [searchVectors, executeFallbackSearch_eq_nil, processSearchResults_demo]

/-- A well-formed stored record (bit pattern 1065353216 is float32 `1.0`),
whose decoded vector matches the query `[1]` exactly — the scan should give
it cosine similarity 1. -/
def sampleStoredRecord : VectorRecord :=
  { key := "vector:chunk-1", vector := some [1065353216],
    content := "sample content", title := "Sample", filename := "sample.pdf",
    doc_id := "doc-1", chunk_id := "chunk-1", tags := "demo",
    word_count := 2, chunk_index := 0, upload_date := "2025-01-01",
    embedding_method := "local" }

/-- Claim C2 (code bug): the fallback scan is supposed to consider every
stored record as a candidate via its cosine similarity, but the call
`self._calculate_cosine_similarity` at line 322 names a method the class
never defines; the resulting `AttributeError` is caught per record
(line 344), so even a store holding a single valid record whose vector
equals the query yields no candidate — and in general the scan yields no
candidate for any store. -/
theorem fallback_scan_yields_no_candidates :
    executeFallbackSearch [sampleStoredRecord] [1] 10 = [] ∧
    ∀ (store : List VectorRecord) (qv : List ℚ) (limit : Nat),
      executeFallbackSearch store qv limit = [] :=
  ⟨executeFallbackSearch_eq_nil _ _ _, executeFallbackSearch_eq_nil⟩

/-- Claim C3: for every query, limit, threshold, filter set and embedding
outcome, a search against an empty vector store returns the empty result
list and raises no error (`search_vectors` catches every exception; the
demo results injected at line 184 are all discarded by
`_process_search_results`). -/
theorem empty_store_search_returns_empty (embedResult : Except String (List ℚ))
    (query : String) (limit : Nat) (filters : Option (List (String × String)))
    (threshold : ℚ) :
    searchVectors [] embedResult query limit filters threshold = [] :=
  searchVectors_eq_nil [] embedResult query limit filters threshold

def rawTieA : RawResult :=
  { similarity := some (1/2), score := some (1/2), chunk_id := "a",
    doc_id := "d", content := "", title := "", filename := "",
    word_count := 1, chunk_index := 5, tags := .str "",
    upload_date := "", embedding_method := "" }

def rawTieB : RawResult :=
  { rawTieA with chunk_id := "b", chunk_index := 2 }

def tieOutA : Enhanced :=
  { chunk_id := "a", doc_id := "d", content := "", title := "", filename := "",
    similarity_score := 1/2, word_count := 1, chunk_index := 5, tags := [],
    upload_date := "", embedding_method := "", search_score := 1/2 }

def tieOutB : Enhanced :=
  { chunk_id := "b", doc_id := "d", content := "", title := "", filename := "",
    similarity_score := 1/2, word_count := 1, chunk_index := 2, tags := [],
    upload_date := "", embedding_method := "", search_score := 1/2 }

/-- Claim C4 counterexample: two candidates with the same similarity score
1/2 arrive with chunk indices 5 and 2 in that order; the processed output
keeps them in arrival order (5 before 2), not in ascending chunk_index
order, because line 401 sorts only by `similarity_score` with Python's
stable sort and applies no tie-break. -/
theorem sort_tie_not_broken_by_chunk_index :
    (processSearchResults [rawTieA, rawTieB] [] 0).map
        (fun e => e.similarity_score) = [1/2, 1/2] ∧
    (processSearchResults [rawTieA, rawTieB] [] 0).map
        (fun e => e.chunk_index) = [5, 2] := by
  have h1 : processOne 0 rawTieA = some tieOutA := by
    unfold processOne rawTieA tieOutA
    norm_num [pyTagsAccess, pyRound4_half]
  have h2 : processOne 0 rawTieB = some tieOutB := by
    unfold processOne rawTieB rawTieA tieOutB
    norm_num [pyTagsAccess, pyRound4_half]
  unfold processSearchResults
  rw [List.filterMap_cons, List.filterMap_cons, List.filterMap_nil, h1, h2]
  unfold pySortDesc
  rw [List.insertionSort, List.insertionSort, List.insertionSort]
  rw [List.orderedInsert, List.orderedInsert]
  rw [if_pos (by unfold keyGe tieOutA tieOutB; norm_num)]
  unfold tieOutA tieOutB
  simp

/-- Claim C4 (amended): for every fixed candidate list, query vector and
threshold, the returned results are sorted by `similarity_score` in
non-increasing order and are a permutation of the threshold-surviving
processed candidates; ties are left in the candidates' original order (the
sort is stable) — they are not reordered by `chunk_index`. -/
theorem results_sorted_desc_stable (results : List RawResult) (qv : List ℚ)
    (threshold : ℚ) :
    List.Sorted (keyGe (fun e : Enhanced => e.similarity_score))
        (processSearchResults results qv threshold) ∧
    (processSearchResults results qv threshold).Perm
        (results.filterMap (processOne threshold)) :=
  ⟨List.sorted_insertionSort _ _, List.perm_insertionSort _ _⟩

/-- The scan-and-delete loop of `delete_document_vectors` (lines 411-424):
every `vector:*` key whose `doc_id` hash field equals the argument is
deleted and counted. -/
def deleteLoop (docId : String) : List VectorRecord → List VectorRecord × Nat
  | [] => ([], 0)
  | r :: rest =>
    let res := deleteLoop docId rest
    if r.doc_id = docId then (res.1, res.2 + 1) else (r :: res.1, res.2)

/-- `delete_document_vectors` (lines 405-436): runs the scan-and-delete loop
and adds `deleted_count` to `stats:vectors_deleted`; the function's *return
value* is `deleted_count > 0` (line 432), a boolean.  The pair returned here
carries the new store, the internal `deleted_count`, and that boolean
return value. -/
def deleteDocumentVectors (store : List VectorRecord) (docId : String) :
    List VectorRecord × Nat × Bool :=
  let res := deleteLoop docId store
  (res.1, res.2, decide (0 < res.2))

/-- Python booleans are integers: `True == 1` and `False == 0`. -/
def pyBoolToNat : Bool → Nat
  | true => 1
  | false => 0

theorem deleteLoop_filter (docId : String) :
    ∀ store : List VectorRecord,
      (deleteLoop docId store).1 = store.filter (fun r => decide (r.doc_id ≠ docId)) ∧
      (deleteLoop docId store).2 =
        (store.filter (fun r => decide (r.doc_id = docId))).length := by
  intro store
  induction store with
  | nil => exact ⟨rfl, rfl⟩
  | cons r rest ih =>
    by_cases h : r.doc_id = docId
    · simp [deleteLoop, h, List.filter_cons, ih.1, ih.2]
    · simp [deleteLoop, h, List.filter_cons, ih.1, ih.2]

theorem deleteLoop_length (docId : String) :
    ∀ store : List VectorRecord,
      store.length = (deleteLoop docId store).1.length + (deleteLoop docId store).2 := by
  intro store
  induction store with
  | nil => rfl
  | cons r rest ih =>
    by_cases h : r.doc_id = docId
    · simp [deleteLoop, h]
      omega
    · simp [deleteLoop, h]
      omega

def mkStoredRecord (k cid did : String) (vec : List Nat) : VectorRecord :=
  { key := k, vector := some vec, content := "c", title := "t", filename := "f",
    doc_id := did, chunk_id := cid, tags := "", word_count := 1, chunk_index := 0,
    upload_date := "u", embedding_method := "m" }

def deleteDemoStore : List VectorRecord :=
  [mkStoredRecord "vector:c1" "c1" "d" [0], mkStoredRecord "vector:c2" "c2" "d" [0],
   mkStoredRecord "vector:c3" "c3" "e" [0]]

/-- Claim C8 counterexample: deleting document `"d"` from a store where it
has two records removes both, but the function returns the boolean `True`
(in Python an integer equal to 1), not the count 2 — it does not report the
count deleted. -/
theorem delete_returns_flag_not_count :
    (deleteDocumentVectors deleteDemoStore "d").2.1 = 2 ∧
    (deleteDocumentVectors deleteDemoStore "d").2.2 = true ∧
    pyBoolToNat (deleteDocumentVectors deleteDemoStore "d").2.2 ≠
      (deleteDocumentVectors deleteDemoStore "d").2.1 := by
  refine ⟨rfl, rfl, by decide⟩

/-- Claim C8 (amended): `delete_document_vectors(doc_id)` removes every
stored record whose `doc_id` matches and only those (all other records are
kept unchanged, in order), the stored-record count decreases by exactly the
number of that document's records, and afterwards no search over the store
returns a result with that `doc_id`; but the function returns only the
boolean `deleted_count > 0` — the count itself is logged and added to a
statistics counter, not returned. -/
theorem delete_document_vectors_frame (store : List VectorRecord) (docId : String) :
    (deleteDocumentVectors store docId).1 =
      store.filter (fun r => decide (r.doc_id ≠ docId)) ∧
    (deleteDocumentVectors store docId).2.1 =
      (store.filter (fun r => decide (r.doc_id = docId))).length ∧
    (deleteDocumentVectors store docId).2.2 =
      decide (0 < (deleteDocumentVectors store docId).2.1) ∧
    store.length =
      (deleteDocumentVectors store docId).1.length +
        (deleteDocumentVectors store docId).2.1 ∧
    (∀ r ∈ (deleteDocumentVectors store docId).1, r.doc_id ≠ docId) ∧
    (∀ (e : Except String (List ℚ)) (q : String) (limit : Nat)
        (f : Option (List (String × String))) (t : ℚ) (res : Enhanced),
      res ∈ searchVectors (deleteDocumentVectors store docId).1 e q limit f t →
        res.doc_id ≠ docId) := by
  refine ⟨(deleteLoop_filter docId store).1, (deleteLoop_filter docId store).2, rfl,
    deleteLoop_length docId store, ?_, ?_⟩
  · intro r hr
    rw [show (deleteDocumentVectors store docId).1 = (deleteLoop docId store).1 from rfl,
      (deleteLoop_filter docId store).1] at hr
    exact of_decide_eq_true (List.mem_filter.mp hr).2
  · intro e q limit f t res hres
    rw [searchVectors_eq_nil] at hres
    exact absurd hres (List.not_mem_nil res)

/-- One chunk dict of `chunks_data`, restricted to the fields
`add_document_vectors` reads (lines 101-126). -/
structure ChunkData where
  id : String
  text : String
  title : String
  filename : String
  tags : List String
  word_count : Nat
  chunk_index : Nat
  upload_date : String
deriving DecidableEq

/-- `redis_client.client.hset(vector_key, mapping=vector_data)` (line 135):
replace the hash stored at the key, or create it. -/
def storeSet (store : List VectorRecord) (rec : VectorRecord) : List VectorRecord :=
  if store.any (fun r => decide (r.key = rec.key)) then
    store.map (fun r => if r.key = rec.key then rec else r)
  else store ++ [rec]

/-- The hash written for one chunk by `add_document_vectors`
(lines 105-129): the embedding is converted to float32 bytes and stored
base64-wrapped with *no dimension check*; `content` keeps the first 1000
characters of the chunk text; `method` is `embedding["method"]` from the
embedding collaborator. -/
def mkVectorRecord (docId : String) (c : ChunkData) (emb : List Nat)
    (method : String) : VectorRecord :=
  { key := "vector:" ++ c.id, vector := some emb, content := c.text.take 1000,
    title := c.title, filename := c.filename, doc_id := docId, chunk_id := c.id,
    tags := String.intercalate "|" c.tags, word_count := c.word_count,
    chunk_index := c.chunk_index, upload_date := c.upload_date,
    embedding_method := method }

/-- `add_document_vectors` (lines 86-156): zips the chunks with the
embeddings obtained from the external embedding collaborator (an explicit
argument here), stores one hash per chunk, and counts `vectors_added`. -/
def addDocumentVectors (store : List VectorRecord) (docId : String)
    (chunks : List ChunkData) (embeddings : List (List Nat)) (method : String) :
    List VectorRecord × Nat :=
  (chunks.zip embeddings).foldl
    (fun acc ce => (storeSet acc.1 (mkVectorRecord docId ce.1 ce.2 method), acc.2 + 1))
    (store, 0)

theorem mem_storeSet_self (store : List VectorRecord) (rec : VectorRecord) :
    rec ∈ storeSet store rec := by
  unfold storeSet
  by_cases h : store.any (fun r => decide (r.key = rec.key)) = true
  · rw [if_pos h]
    obtain ⟨r, hr, hkey⟩ := List.any_eq_true.mp h
    exact List.mem_map.mpr ⟨r, hr, by rw [if_pos (of_decide_eq_true hkey)]⟩
  · rw [if_neg h]
    exact List.mem_append_right store (List.mem_singleton.mpr rfl)

def shortChunk : ChunkData :=
  { id := "c1", text := "hello world", title := "T", filename := "f.pdf",
    tags := ["x"], word_count := 2, chunk_index := 0,
    upload_date := "2025-01-01" }

/-- Claim C6 counterexample: a two-component embedding (length 2, not the
configured 1536) passes through `add_document_vectors` unchecked and is
persisted — the write path never calls `_serialize_vector`, so its
dimension guard protects nothing. -/
theorem wrong_dimension_vector_persisted :
    (2 : Nat) ≠ embedding_dimensions ∧
    mkVectorRecord "doc-1" shortChunk [1, 2] "local" ∈
      (addDocumentVectors [] "doc-1" [shortChunk] [[1, 2]] "local").1 ∧
    (mkVectorRecord "doc-1" shortChunk [1, 2] "local").vector = some [1, 2] := by
  refine ⟨by decide, ?_, rfl⟩
  have h : (addDocumentVectors [] "doc-1" [shortChunk] [[1, 2]] "local").1 =
      storeSet [] (mkVectorRecord "doc-1" shortChunk [1, 2] "local") := rfl
  rw [h]
  exact mem_storeSet_self _ _

/-- Claim C6 (amended): `_serialize_vector` raises the dimension-mismatch
`ValueError` for every vector whose length differs from the configured
dimensionality, but the storage path `add_document_vectors` never invokes
it and performs no dimension validation, so a wrong-length embedding is
persisted as-is. -/
theorem serialize_guard_but_unvalidated_write (v : List Nat)
    (h : v.length ≠ embedding_dimensions) :
    serializeVector v = .error ("Vector dimension mismatch: got " ++
        toString v.length ++ ", expected " ++ toString embedding_dimensions) ∧
    ∀ (store : List VectorRecord) (docId : String) (c : ChunkData)
        (method : String),
      mkVectorRecord docId c v method ∈
        (addDocumentVectors store docId [c] [v] method).1 := by
  constructor
  · unfold serializeVector
    rw [if_pos h]
  · intro store docId c method
    have heq : (addDocumentVectors store docId [c] [v] method).1 =
        storeSet store (mkVectorRecord docId c v method) := rfl
    rw [heq]
    exact mem_storeSet_self _ _

/-- Witness for the amended C6 at the concrete embedding `[1, 2]`. -/
theorem serialize_guard_but_unvalidated_write_witness :
    serializeVector [1, 2] = .error ("Vector dimension mismatch: got " ++
        toString ([1, 2] : List Nat).length ++ ", expected " ++
        toString embedding_dimensions) ∧
    mkVectorRecord "doc-9" shortChunk [1, 2] "local" ∈
      (addDocumentVectors [] "doc-9" [shortChunk] [[1, 2]] "local").1 :=
  ⟨(serialize_guard_but_unvalidated_write [1, 2] (by decide)).1,
   (serialize_guard_but_unvalidated_write [1, 2] (by decide)).2 [] "doc-9"
     shortChunk "local"⟩

/-- The request model `SearchQuery` of `app/api/search.py` (lines 19-25). -/
structure SearchQueryR where
  query : String
  limit : Nat
  similarity_threshold : ℚ
  filters : Option (List (String × String))
  include_content : Bool
  include_metadata : Bool
deriving DecidableEq

/-- The response model `SearchResult` (lines 27-38). -/
structure SearchResultR where
  chunk_id : String
  doc_id : String
  content : String
  title : String
  filename : String
  similarity_score : ℚ
  word_count : Nat
  chunk_index : Nat
  tags : List String
  upload_date : String
  embedding_method : String
deriving DecidableEq

/-- The response model `SearchResponse` (lines 40-46).  `processing_time`
(wall-clock) and `search_id` (time-seeded hash) concern no claim and are
omitted. -/
structure SearchResponseR where
  query : String
  results : List SearchResultR
  total_results : Nat
  cached : Bool
deriving DecidableEq

/-- Construction of one `SearchResult` from an enhanced result
(lines 92-104): `content` is blanked when `include_content` is false. -/
def formatResult (includeContent : Bool) (e : Enhanced) : SearchResultR :=
  { chunk_id := e.chunk_id, doc_id := e.doc_id,
    content := if includeContent then e.content else "",
    title := e.title, filename := e.filename,
    similarity_score := e.similarity_score, word_count := e.word_count,
    chunk_index := e.chunk_index, tags := e.tags, upload_date := e.upload_date,
    embedding_method := e.embedding_method }

/-- The mutable state the search route touches: the vector store, the
search-result cache (`search_cache:*` keys; the md5 of the sorted-key JSON
of the request is injective on requests, so the request value itself serves
as the cache key), and the two counters the claims concern
(`stats:total_searches` and `stats:cache_hits`). -/
structure SysState where
  store : List VectorRecord
  cache : List (SearchQueryR × List SearchResultR)
  totalSearches : Nat
  cacheHits : Nat
deriving DecidableEq

/-- `redis_client.client.get(cache_key)` (line 62). -/
def cacheLookup (cache : List (SearchQueryR × List SearchResultR))
    (q : SearchQueryR) : Option (List SearchResultR) :=
  match cache.find? (fun e => decide (e.1 = q)) with
  | some e => some e.2
  | none => none

/-- `redis_client.client.setex(cache_key, ttl, ...)` (lines 115-119):
overwrite or create the entry.  TTL expiry is not modelled; the cache
claims concern behaviour within the TTL. -/
def cacheSet (cache : List (SearchQueryR × List SearchResultR))
    (q : SearchQueryR) (r : List SearchResultR) :
    List (SearchQueryR × List SearchResultR) :=
  if cache.any (fun e => decide (e.1 = q)) then
    cache.map (fun e => if e.1 = q then (q, r) else e)
  else cache ++ [(q, r)]

/-- The route `search_documents` (lines 48-162).  `enableCache` is
`settings.enable_search_cache`; `embedResult` the outcome of the embedding
collaborator used inside `search_vectors`; `runBackgroundTask` whether the
backup analytics task scheduled at lines 140-147 (which increments
`stats:total_searches` a second time, line 312) has run.  On a cache hit
(lines 62-79) only `stats:cache_hits` is incremented and the cached results
are returned with `cached=true`; on a miss the vector search runs, the
formatted results are cached only when nonempty (line 110), and
`stats:total_searches` is incremented once inline (line 125) plus once more
by the background task. -/
def searchDocuments (enableCache : Bool) (st : SysState) (q : SearchQueryR)
    (embedResult : Except String (List ℚ)) (runBackgroundTask : Bool) :
    SysState × SearchResponseR :=
  match (if enableCache then cacheLookup st.cache q else none) with
  | some results =>
    ({ st with cacheHits := st.cacheHits + 1 },
     { query := q.query, results := results, total_results := results.length,
       cached := true })
  | none =>
    let searchResults := searchVectors st.store embedResult q.query q.limit
        q.filters q.similarity_threshold
    let formatted := searchResults.map (formatResult q.include_content)
    let cache' := if enableCache ∧ formatted ≠ [] then cacheSet st.cache q formatted
                  else st.cache
    let total' := st.totalSearches + 1 + (if runBackgroundTask then 1 else 0)
    ({ store := st.store, cache := cache', totalSearches := total',
       cacheHits := st.cacheHits },
     { query := q.query, results := formatted, total_results := formatted.length,
       cached := false })

/-- On a cache miss the search pipeline returns no results (see
`searchVectors_eq_nil`), so nothing is cached, the counters advance by
1 (+1 for the background task) and the response is an empty success. -/
theorem searchDocuments_miss (enableCache : Bool) (st : SysState)
    (q : SearchQueryR) (e : Except String (List ℚ)) (bg : Bool)
    (h : (if enableCache then cacheLookup st.cache q else none) = none) :
    searchDocuments enableCache st q e bg =
      ({ store := st.store, cache := st.cache,
         totalSearches := st.totalSearches + 1 + (if bg then 1 else 0),
         cacheHits := st.cacheHits },
       { query := q.query, results := [], total_results := 0,
         cached := false }) := by
  unfold searchDocuments
  rw [h]
  simp [searchVectors_eq_nil]

theorem searchDocuments_hit (st : SysState) (q : SearchQueryR)
    (r : List SearchResultR) (e : Except String (List ℚ)) (bg : Bool)
    (h : cacheLookup st.cache q = some r) :
    searchDocuments true st q e bg =
      ({ st with cacheHits := st.cacheHits + 1 },
       { query := q.query, results := r, total_results := r.length,
         cached := true }) := by
  unfold searchDocuments
  simp [h]

def st0 : SysState :=
  { store := [sampleStoredRecord], cache := [], totalSearches := 0,
    cacheHits := 0 }

def q0 : SearchQueryR :=
  { query := "redis performance", limit := 10, similarity_threshold := 1/10,
    filters := none, include_content := true, include_metadata := true }

/-- Claim C5 counterexample: with the store populated and the embedding
collaborator unavailable, the route returns a normal success response with
zero results and `cached=false` — exactly a zero-result success —
instead of an error: `search_vectors` catches the exception and returns
`[]` (lines 193-195), so nothing ever reaches the HTTP 500 handler at
lines 160-162. -/
theorem embedding_failure_returns_empty_success :
    (searchDocuments true st0 q0 (.error "embedding unavailable") true).2 =
      { query := "redis performance", results := [], total_results := 0,
        cached := false } := by
  rw [searchDocuments_miss true st0 q0 (.error "embedding unavailable") true rfl]
  rfl

/-- Claim C5 (amended): a per-request failure inside the search pipeline
(here: the embedding collaborator failing) is not surfaced as an error —
whenever the cache misses, the caller receives a successful zero-result
response with `cached=false`, indistinguishable from a search that found
nothing; only exceptions raised in the route outside `search_vectors` reach
the HTTP 500 handler. -/
theorem internal_failure_returns_zero_result_success (enableCache : Bool)
    (st : SysState) (q : SearchQueryR) (msg : String) (bg : Bool)
    (h : (if enableCache then cacheLookup st.cache q else none) = none) :
    (searchDocuments enableCache st q (.error msg) bg).2.results = [] ∧
    (searchDocuments enableCache st q (.error msg) bg).2.cached = false := by
  rw [searchDocuments_miss enableCache st q (.error msg) bg h]
  exact ⟨rfl, rfl⟩

/-- Witness for the amended C5 at a concrete failing request. -/
theorem internal_failure_returns_zero_result_success_witness :
    (searchDocuments true st0 q0 (.error "store unreachable") true).2.results = [] ∧
    (searchDocuments true st0 q0 (.error "store unreachable") true).2.cached = false :=
  internal_failure_returns_zero_result_success true st0 q0 "store unreachable"
    true rfl

/-- Claim C7 counterexample: the identical request issued twice against a
populated store, caching enabled, within the TTL and with no intervening
mutation, is answered `cached=false` *both* times (the claim requires
`cached=true` the second time): the first search produced zero results, so
no cache entry was written. -/
theorem repeat_query_not_cached :
    (searchDocuments true st0 q0 (.ok [1]) true).2.cached = false ∧
    (searchDocuments true (searchDocuments true st0 q0 (.ok [1]) true).1 q0
        (.ok [1]) true).2.cached = false := by
  have h1 := searchDocuments_miss true st0 q0 (.ok [1]) true rfl
  constructor
  · rw [h1]
  · rw [h1]
    rw [searchDocuments_miss true
      ({ store := st0.store, cache := st0.cache,
         totalSearches := st0.totalSearches + 1 + (if true then 1 else 0),
         cacheHits := st0.cacheHits }) q0 (.ok [1]) true rfl]

/-- Claim C7 (amended): a response carries `cached=true` only when a
previously written nonempty entry exists for the key; an entry is written
only after a search that produced at least one formatted result, and this
code's search pipeline always produces zero results, so an identical
request repeated within the TTL with no intervening store mutation is
answered `cached=false` both times with identical (empty) results content. -/
theorem repeat_query_cached_false_twice (st : SysState) (q : SearchQueryR)
    (e1 e2 : Except String (List ℚ)) (bg1 bg2 : Bool)
    (h : cacheLookup st.cache q = none) :
    (searchDocuments true st q e1 bg1).2.cached = false ∧
    (searchDocuments true (searchDocuments true st q e1 bg1).1 q e2 bg2).2.cached
      = false ∧
    (searchDocuments true st q e1 bg1).2.results =
      (searchDocuments true (searchDocuments true st q e1 bg1).1 q e2 bg2).2.results := by
  have h1 := searchDocuments_miss true st q e1 bg1 (by simpa using h)
  rw [h1]
  have h2 := searchDocuments_miss true
    ({ store := st.store, cache := st.cache,
       totalSearches := st.totalSearches + 1 + (if bg1 then 1 else 0),
       cacheHits := st.cacheHits }) q e2 bg2 (by simpa using h)
  rw [h2]
  exact ⟨rfl, rfl, rfl⟩

/-- Witness for the amended C7 at a concrete repeated request. -/
theorem repeat_query_cached_false_twice_witness :
    (searchDocuments true st0 q0 (.ok [1]) true).2.cached = false ∧
    (searchDocuments true (searchDocuments true st0 q0 (.ok [1]) true).1 q0
        (.ok [1]) true).2.cached = false ∧
    (searchDocuments true st0 q0 (.ok [1]) true).2.results =
      (searchDocuments true (searchDocuments true st0 q0 (.ok [1]) true).1 q0
        (.ok [1]) true).2.results :=
  repeat_query_cached_false_twice st0 q0 (.ok [1]) (.ok [1]) true true rfl

def cachedEntryResult : SearchResultR :=
  { chunk_id := "c1", doc_id := "doc-1", content := "sample", title := "T",
    filename := "f.pdf", similarity_score := 9/10, word_count := 1,
    chunk_index := 0, tags := [], upload_date := "u",
    embedding_method := "m" }

def stHit : SysState :=
  { store := [], cache := [(q0, [cachedEntryResult])], totalSearches := 0,
    cacheHits := 0 }

theorem stHit_lookup : cacheLookup stHit.cache q0 = some [cachedEntryResult] := by
  unfold cacheLookup stHit
  rw [List.find?_cons_of_pos _ (by simp)]

/-- Claim C9 counterexample: a completed search that hits the cache
increments only `stats:cache_hits` (lines 62-79) and leaves
`stats:total_searches` untouched — it is not incremented by exactly one. -/
theorem cache_hit_skips_total_counter :
    (searchDocuments true stHit q0 (.ok [1]) true).2.cached = true ∧
    (searchDocuments true stHit q0 (.ok [1]) true).1.totalSearches = 0 ∧
    (searchDocuments true stHit q0 (.ok [1]) true).1.totalSearches ≠
      stHit.totalSearches + 1 := by
  rw [searchDocuments_hit stHit q0 [cachedEntryResult] (.ok [1]) true stHit_lookup]
  exact ⟨rfl, rfl, by decide⟩

/-- Claim C9 (amended): a cache hit increments only the cache-hit counter
and does not touch the total-searches counter; a cache miss (with the
backup background analytics task having run) increments the total-searches
counter *twice* — once inline at line 125 and once more by the background
task at line 312 — and leaves the cache-hit counter unchanged. -/
theorem analytics_counter_behavior (st : SysState) (q : SearchQueryR)
    (e : Except String (List ℚ)) (r : List SearchResultR) :
    (cacheLookup st.cache q = some r →
      (searchDocuments true st q e true).1.totalSearches = st.totalSearches ∧
      (searchDocuments true st q e true).1.cacheHits = st.cacheHits + 1) ∧
    (cacheLookup st.cache q = none →
      (searchDocuments true st q e true).1.totalSearches = st.totalSearches + 2 ∧
      (searchDocuments true st q e true).1.cacheHits = st.cacheHits) := by
  constructor
  · intro h
    rw [searchDocuments_hit st q r e true h]
    exact ⟨rfl, rfl⟩
  · intro h
    rw [searchDocuments_miss true st q e true (by simpa using h)]
    exact ⟨rfl, rfl⟩

/-- Witness for the amended C9: the hit case at `stHit` and the miss case
at `st0`. -/
theorem analytics_counter_behavior_witness :
    ((searchDocuments true stHit q0 (.ok [1]) true).1.totalSearches =
        stHit.totalSearches ∧
      (searchDocuments true stHit q0 (.ok [1]) true).1.cacheHits =
        stHit.cacheHits + 1) ∧
    ((searchDocuments true st0 q0 (.ok [1]) true).1.totalSearches =
        st0.totalSearches + 2 ∧
      (searchDocuments true st0 q0 (.ok [1]) true).1.cacheHits =
        st0.cacheHits) :=
  ⟨(analytics_counter_behavior stHit q0 (.ok [1]) [cachedEntryResult]).1
      stHit_lookup,
   (analytics_counter_behavior st0 q0 (.ok [1]) []).2 rfl⟩

/-- Claim C10: a cache entry is written only after a search that produced
at least one formatted result, so the search cache never holds an entry
with an empty results list; consequently a query whose search yields zero
results leaves the cache unchanged and its repeat re-executes the pipeline
(it is never answered `cached=true`). -/
theorem cache_never_stores_empty_results (enableCache : Bool) (st : SysState)
    (q : SearchQueryR) (e e2 : Except String (List ℚ)) (bg bg2 : Bool)
    (hinv : ∀ entry ∈ st.cache, entry.2 ≠ []) :
    (∀ entry ∈ (searchDocuments enableCache st q e bg).1.cache, entry.2 ≠ []) ∧
    ((searchDocuments enableCache st q e bg).2.cached = false →
      (searchDocuments enableCache st q e bg).2.results = [] →
      (searchDocuments enableCache (searchDocuments enableCache st q e bg).1 q
          e2 bg2).2.cached = false) := by
  cases enableCache with
  | false =>
    rw [searchDocuments_miss false st q e bg rfl]
    refine ⟨hinv, ?_⟩
    intro hc hr
    rw [searchDocuments_miss false
      ({ store := st.store, cache := st.cache,
         totalSearches := st.totalSearches + 1 + (if bg then 1 else 0),
         cacheHits := st.cacheHits }) q e2 bg2 rfl]
  | true =>
    cases hc : cacheLookup st.cache q with
    | some r =>
      rw [searchDocuments_hit st q r e bg hc]
      refine ⟨hinv, ?_⟩
      intro hfalse
      exact absurd hfalse (by simp)
    | none =>
      rw [searchDocuments_miss true st q e bg (by simpa using hc)]
      refine ⟨hinv, ?_⟩
      intro _ _
      rw [searchDocuments_miss true
        ({ store := st.store, cache := st.cache,
           totalSearches := st.totalSearches + 1 + (if bg then 1 else 0),
           cacheHits := st.cacheHits }) q e2 bg2 (by simpa using hc)]

/-- Witness for C10 at a concrete state with an empty cache. -/
theorem cache_never_stores_empty_results_witness :
    (∀ entry ∈ (searchDocuments true st0 q0 (.ok [1]) true).1.cache,
      entry.2 ≠ []) ∧
    ((searchDocuments true st0 q0 (.ok [1]) true).2.cached = false →
      (searchDocuments true st0 q0 (.ok [1]) true).2.results = [] →
      (searchDocuments true (searchDocuments true st0 q0 (.ok [1]) true).1 q0
          (.ok [1]) true).2.cached = false) :=
  cache_never_stores_empty_results true st0 q0 (.ok [1]) (.ok [1]) true true
    (fun entry h => absurd h (List.not_mem_nil entry))
